import Mathlib

/-!
Verification of the `aioimap` receiver (src/aioimap/receiver.py, api.py).

The development shallowly embeds the control flow of `Receiver` as
trace-producing functions:

* transport commands issued over the single IMAP connection, lock
  acquisitions/releases of `imap_client_lock`, callback invocations and
  the RECEIVER_STOPPED sentinel delivery are recorded as `Event`s;
* `wait_for_new_message` (mailbox selection, the initial unseen drain,
  the IDLE loop) is `wfnm_init_events` / `iter_events` / `loop_events`,
  driven by an environment describing the idle outcomes (timeout or
  cancellation raised out of `wait_server_push`, push with or without an
  EXISTS line) and the search results with the well-formedness of each
  fetch response (`lines > 1` in the source);
* `login`, `change_mailbox`, `logout` and `handle_exit` are embedded
  directly, exceptions becoming `Except` values;
* the outer `Receiver.run` retry loop is `run_loop` over scripted
  per-iteration outcomes.

Checkers (`idleSteps`, `underLock`, `countEv`, `handlerCalls`,
`fetchCmds`) are executable so that concrete traces evaluate by
`decide`/`rfl`.
-/

/-- Observable events of one receiver session: transport commands sent on
the IMAP connection, lock operations on `imap_client_lock`, and callback
invocations. `handlerStopped` is `callback(RECEIVER_STOPPED)`;
`loginAttempt`/`loginSuccess` record the outer `run` loop's login calls. -/
inductive Event where
  | lockAcquire
  | lockRelease
  | helloCmd
  | loginCmd
  | selectCmd (m : String)
  | searchCmd
  | fetchCmd (id : String)
  | handlerCall (id : String)
  | handlerStopped
  | idleStartCmd
  | idleDoneCmd
  | logoutCmd
  | loginAttempt
  | loginSuccess
deriving DecidableEq, Repr

/-- Exceptions that the Python code can raise at the embedded boundaries. -/
inductive Exc where
  | timeoutError
  | socketError
  | runtimeError
  | valueError
deriving DecidableEq, Repr

/-- Outcome of one `wait_server_push` inside the idle loop: either the
wait raises (asyncio TimeoutError or CancelledError), or a server push
message arrives, which may or may not contain an EXISTS line. -/
inductive IdleOutcome where
  | timeout
  | push (hasExists : Bool)
deriving DecidableEq, Repr

/-- Environment for one iteration of the `while True` loop in
`wait_for_new_message`: whether `protocol.idle_queue.empty()` holds at the
idle-start check, how `wait_server_push` resolves, and — when an EXISTS
push triggers a drain — the unseen IDs returned by `search_unseen`, each
paired with whether its fetch response has more than one line. -/
structure IterInput where
  queueEmpty : Bool
  outcome : IdleOutcome
  ids : List (String × Bool)
deriving DecidableEq, Repr

/-- The drain body (receiver.py lines 177-184 and 223-230): for each
unseen ID, a `fetch` command; when the response has more than one line
(`len(response.lines) > 1`) the callback is invoked on the message,
otherwise the ID is silently skipped. -/
def drain_events : List (String × Bool) → List Event
  | [] => []
  | (id, ok) :: rest =>
      Event.fetchCmd id ::
        ((if ok then [Event.handlerCall id] else []) ++ drain_events rest)

/-- One iteration of the idle loop (receiver.py lines 186-232), given the
client's pending-idle state. The whole body runs inside
`async with self.imap_client_lock`; `idle_start` is issued only when no
idle is pending and the idle queue is empty; after `wait_server_push`
returns a message, `idle_done` is sent iff an idle is pending, and only
then is the EXISTS drain performed. A raising `wait_server_push`
(timeout/cancellation) exits the `async with`, releasing the lock.
Returns (trace, pending-idle afterwards, raised). -/
def iter_events (pending : Bool) (inp : IterInput) : List Event × Bool × Bool :=
  let doStart := !pending && inp.queueEmpty
  let startEvs := if doStart then [Event.idleStartCmd] else []
  let p1 := pending || doStart
  match inp.outcome with
  | IdleOutcome.timeout =>
      (Event.lockAcquire :: (startEvs ++ [Event.lockRelease]), p1, true)
  | IdleOutcome.push hasExists =>
      let doneEvs := if p1 then [Event.idleDoneCmd] else []
      let drainEvs :=
        if hasExists then Event.searchCmd :: drain_events inp.ids else []
      (Event.lockAcquire ::
         (startEvs ++ doneEvs ++ drainEvs ++ [Event.lockRelease]),
       false, false)

/-- The `while True` loop of `wait_for_new_message`, run over a finite
script of iteration inputs; an iteration whose push-wait raises ends the
loop (the exception propagates to `Receiver.run`). Returns the trace and
the final pending-idle state. -/
def loop_events : Bool → List IterInput → List Event × Bool
  | p, [] => ([], p)
  | p, inp :: rest =>
      let r := iter_events p inp
      if r.2.2 then (r.1, r.2.1)
      else
        let r2 := loop_events r.2.1 rest
        (r.1 ++ r2.1, r2.2)

/-- Trace of `Receiver.change_mailbox` (receiver.py lines 121-150): the
`select` command is issued inside `async with self.imap_client_lock`.
No idle-related call appears anywhere in its body. -/
def change_mailbox_events (m : String) : List Event :=
  [Event.lockAcquire, Event.selectCmd m, Event.lockRelease]

/-- Effect of `Receiver.change_mailbox` on the client's pending-idle
state: its body (receiver.py lines 121-150) contains no `idle_done`,
`idle_start` or `has_pending_idle` call, so the pending-idle state is
untouched. -/
def change_mailbox_step (p : Bool) (m : String) : List Event × Bool :=
  (change_mailbox_events m, p)

/-- Trace of `Receiver.logout` (receiver.py lines 234-263): under the
lock, if the protocol state admits LOGOUT then a pending idle is first
completed with `idle_done` and then `logout` is sent; in an invalid state
nothing is sent. -/
def logout_events (pending validState : Bool) : List Event :=
  Event.lockAcquire ::
    ((if validState then
        (if pending then [Event.idleDoneCmd] else []) ++ [Event.logoutCmd]
      else []) ++ [Event.lockRelease])

/-- Prefix of `wait_for_new_message` (receiver.py lines 172-184): select
the mailbox via `change_mailbox`, then — with the lock already released —
call `search_unseen` and drain every returned ID. -/
def wfnm_init_events (m : String) (ids : List (String × Bool)) : List Event :=
  change_mailbox_events m ++ (Event.searchCmd :: drain_events ids)

/-- One full session from mailbox selection to logout: the
`wait_for_new_message` prefix and loop, followed by `logout` in the final
pending-idle state (`validState` = whether the protocol state still
admits LOGOUT). -/
def session_events (m : String) (ids : List (String × Bool))
    (inputs : List IterInput) (validState : Bool) : List Event :=
  wfnm_init_events m ids ++
    ((loop_events false inputs).1 ++
      logout_events (loop_events false inputs).2 validState)

/-- Transport outcomes seen by `Receiver.login`: how
`wait_hello_from_server` resolves and, if it succeeds, the result string
of the `login` command (or the exception it raises). -/
structure LoginEnv where
  hello : Except Exc Unit
  response : Except Exc String

/-- Body of `Receiver.login` before its `except` clause (receiver.py
lines 103-113): wait for the greeting, issue login, and raise
RuntimeError when the result is not "OK". -/
def login_body (env : LoginEnv) : Except Exc Bool :=
  match env.hello with
  | Except.error e => Except.error e
  | Except.ok _ =>
      match env.response with
      | Except.error e => Except.error e
      | Except.ok r =>
          if r = "OK" then Except.ok true else Except.error Exc.runtimeError

/-- `Receiver.login` (receiver.py lines 99-119): the bare `except:`
catches every exception from the body, logs it and returns False; on the
non-exceptional path it returns True. The Except layer witnesses that no
exception escapes. -/
def login (env : LoginEnv) : Except Exc Bool :=
  match login_body env with
  | Except.ok b => Except.ok b
  | Except.error _ => Except.ok false

/-- Spec-side restatement of login's contract (§4.1 of the spec): success
exactly when the greeting arrives and authentication returns "OK"; any
transport error or non-OK result is failure. Compared against `login` in
the C4 theorem. -/
def login_spec (env : LoginEnv) : Bool :=
  match env.hello, env.response with
  | Except.ok _, Except.ok r => decide (r = "OK")
  | _, _ => false

/-- Trace of `Receiver.login` with its lock events: the greeting wait and
the login command both happen inside `async with self.imap_client_lock`;
if the greeting raises, the `async with` releases the lock and the
command is never sent. -/
def login_events (env : LoginEnv) : List Event :=
  Event.lockAcquire :: Event.helloCmd ::
    ((match env.hello with
      | Except.error _ => []
      | Except.ok _ => [Event.loginCmd]) ++ [Event.lockRelease])

/-- `Receiver.change_mailbox` as a fallible function (receiver.py lines
121-150): an empty mailbox name raises ValueError; a name containing a
space is wrapped in double quotes; a non-"OK" select result raises
RuntimeError; on success the (possibly quoted) selected name is
returned. -/
def change_mailbox (mailbox selectResult : String) : Except Exc String :=
  if mailbox.length = 0 then Except.error Exc.valueError
  else
    let m :=
      if ' ' ∈ mailbox.data then "\"" ++ mailbox ++ "\"" else mailbox
    if selectResult = "OK" then Except.ok m
    else Except.error Exc.runtimeError

/-- How `wait_for_new_message` ends as a task, seen from `Receiver.run`:
`errored` is a non-CancelledError exception (run sets `should_exit`);
`cancelledByStop` is cancellation by `handle_exit` (which has already set
`should_exit`); `cancelledRetry` is cancellation by `reconnect`
(`should_exit` stays clear and run retries). -/
inductive TaskEnd where
  | errored
  | cancelledByStop
  | cancelledRetry
deriving DecidableEq, Repr

/-- First step of `wait_for_new_message` (receiver.py line 173): it calls
`change_mailbox`, whose RuntimeError on a non-OK select propagates out of
the task (`some TaskEnd.errored`); on success the task continues into the
loop (`none`). -/
def wfnm_select_outcome (mailbox selectResult : String) : Option TaskEnd :=
  match change_mailbox mailbox selectResult with
  | Except.error _ => some TaskEnd.errored
  | Except.ok _ => none

/-- Scripted outcome of one iteration of the `while not should_exit`
loop in `Receiver.run`: whether login succeeded, how the watch task ended
(meaningful only when login succeeded), and whether `logout` completed
without raising. -/
structure IterEnv where
  loginOk : Bool
  taskEnd : TaskEnd
  logoutOk : Bool
deriving DecidableEq, Repr

/-- One iteration of `Receiver.run`'s loop (receiver.py lines 59-94):
on login failure nothing else happens and the loop retries; on success
the watch task runs until it ends, then `callback(RECEIVER_STOPPED)` is
invoked and `logout` is awaited. `should_exit` is set by a
non-CancelledError task failure, was already set when `handle_exit`
cancelled the task, and is set when `logout` raises. Returns the
iteration trace and `should_exit` afterwards. -/
def run_iter (env : IterEnv) : List Event × Bool :=
  if env.loginOk then
    let se1 :=
      match env.taskEnd with
      | TaskEnd.errored => true
      | TaskEnd.cancelledByStop => true
      | TaskEnd.cancelledRetry => false
    ([Event.loginAttempt, Event.loginSuccess, Event.handlerStopped,
      Event.logoutCmd],
     se1 || !env.logoutOk)
  else ([Event.loginAttempt], false)

/-- The `while not should_exit.is_set()` loop of `Receiver.run`, run over
a finite script of iteration outcomes (truncation of the unbounded
retry loop); the loop stops as soon as an iteration leaves `should_exit`
set. -/
def run_loop : List IterEnv → List Event
  | [] => []
  | env :: rest =>
      let r := run_iter env
      r.1 ++ (if r.2 then [] else run_loop rest)

/-- State touched by `Receiver.handle_exit`: the `should_exit` event,
whether `_task_wfnm` currently holds a task, and how many `.cancel()`
calls have been issued so far. -/
structure RState where
  shouldExit : Bool
  taskActive : Bool
  cancelCount : Nat
deriving DecidableEq, Repr

/-- `Receiver.handle_exit` (receiver.py lines 285-296): only when
`should_exit` is not yet set does it set the flag, cancel the watch task
if one exists, and clear `_task_wfnm`; otherwise it does nothing. -/
def handle_exit (s : RState) : RState :=
  if s.shouldExit then s
  else
    { shouldExit := true
      taskActive := false
      cancelCount := s.cancelCount + (if s.taskActive then 1 else 0) }

/-- The two asyncio events of a `Receiver`. -/
structure EventFlags where
  shouldExit : Bool
  exitEvent : Bool
deriving DecidableEq, Repr

/-- Entry of `Receiver.run` (receiver.py lines 53-55): both
`exit_event` and `should_exit` are cleared unconditionally, whatever
their values were. -/
def run_entry (_f : EventFlags) : EventFlags :=
  { shouldExit := false, exitEvent := false }

/-- `Receiver.run` from the caller's perspective: flags are cleared at
entry, then the retry loop runs guarded by the (freshly cleared)
`should_exit` flag. -/
def run_model (f : EventFlags) (envs : List IterEnv) : List Event :=
  if (run_entry f).shouldExit then [] else run_loop envs

/-- Idle-protocol checker. Walks a trace with the number of outstanding
idles as a Bool (`true` = one outstanding): `idleStart` requires none
outstanding; `idleDone` requires one outstanding; every other transport
command requires none outstanding (IDLE must be completed before any
other command); lock and callback events are transparent. `none` flags a
violation, `some o` returns the final outstanding state. -/
def idleSteps : Bool → List Event → Option Bool
  | o, [] => some o
  | o, Event.idleStartCmd :: rest => if o then none else idleSteps true rest
  | o, Event.idleDoneCmd :: rest => if o then idleSteps false rest else none
  | o, Event.helloCmd :: rest => if o then none else idleSteps o rest
  | o, Event.loginCmd :: rest => if o then none else idleSteps o rest
  | o, Event.selectCmd _ :: rest => if o then none else idleSteps o rest
  | o, Event.searchCmd :: rest => if o then none else idleSteps o rest
  | o, Event.fetchCmd _ :: rest => if o then none else idleSteps o rest
  | o, Event.logoutCmd :: rest => if o then none else idleSteps o rest
  | o, _ :: rest => idleSteps o rest

/-- Lock-discipline checker. Walks a trace with the lock-held state:
every transport command must occur while the lock is held; callback
invocations and the run-level events are transparent. `none` flags a
transport command issued without the lock, `some l` returns the final
lock state. -/
def underLock : Bool → List Event → Option Bool
  | l, [] => some l
  | l, Event.lockAcquire :: rest => underLock true rest
  | l, Event.lockRelease :: rest => underLock false rest
  | l, Event.handlerCall _ :: rest => underLock l rest
  | l, Event.handlerStopped :: rest => underLock l rest
  | l, Event.loginAttempt :: rest => underLock l rest
  | l, Event.loginSuccess :: rest => underLock l rest
  | l, _ :: rest => if l then underLock l rest else none

/-- Number of occurrences of an event in a trace. -/
def countEv (e : Event) : List Event → Nat
  | [] => 0
  | x :: rest => (if x = e then 1 else 0) + countEv e rest

/-- IDs of the messages delivered to the callback, in trace order. -/
def handlerCalls : List Event → List String
  | [] => []
  | Event.handlerCall id :: rest => id :: handlerCalls rest
  | _ :: rest => handlerCalls rest

/-- IDs of the fetch commands issued, in trace order. -/
def fetchCmds : List Event → List String
  | [] => []
  | Event.fetchCmd id :: rest => id :: fetchCmds rest
  | _ :: rest => fetchCmds rest

/-! ## Helper lemmas -/

theorem idleSteps_append (t1 t2 : List Event) (o : Bool) :
    idleSteps o (t1 ++ t2) =
      (idleSteps o t1).bind (fun o2 => idleSteps o2 t2) := by
  induction t1 generalizing o with
  | nil => simp [idleSteps]
  | cons e rest ih =>
    cases e <;> simp [idleSteps, ih] <;> split <;> simp [ih]

theorem idleSteps_drain (ids : List (String × Bool)) :
    idleSteps false (drain_events ids) = some false := by
  induction ids with
  | nil => simp [drain_events, idleSteps]
  | cons x rest ih =>
    obtain ⟨id, ok⟩ := x
    cases ok <;> simp [drain_events, idleSteps, ih]

theorem idleSteps_iter (p : Bool) (inp : IterInput) :
    idleSteps p (iter_events p inp).1 = some (iter_events p inp).2.1 := by
  obtain ⟨qe, oc, ids⟩ := inp
  cases oc with
  | timeout => cases p <;> cases qe <;> simp [iter_events, idleSteps]
  | push he =>
      cases p <;> cases qe <;> cases he <;>
        simp [iter_events, idleSteps, idleSteps_append, idleSteps_drain]

theorem idleSteps_loop (inputs : List IterInput) (p : Bool) :
    idleSteps p (loop_events p inputs).1 = some (loop_events p inputs).2 := by
  induction inputs generalizing p with
  | nil => simp [loop_events, idleSteps]
  | cons inp rest ih =>
    simp only [loop_events]
    split
    · exact idleSteps_iter p inp
    · rw [idleSteps_append, idleSteps_iter]
      simpa using ih (iter_events p inp).2.1

theorem idleSteps_logout (p v : Bool) :
    idleSteps p (logout_events p v) = some (p && !v) := by
  cases p <;> cases v <;> simp [logout_events, idleSteps]

theorem idleSteps_init (m : String) (ids : List (String × Bool)) :
    idleSteps false (wfnm_init_events m ids) = some false := by
  simp [wfnm_init_events, change_mailbox_events, idleSteps,
    idleSteps_append, idleSteps_drain]

theorem idleSteps_session (m : String) (ids : List (String × Bool))
    (inputs : List IterInput) (v : Bool) :
    idleSteps false (session_events m ids inputs v) =
      some ((loop_events false inputs).2 && !v) := by
  rw [session_events, idleSteps_append, idleSteps_init]
  simp only [Option.some_bind]
  rw [idleSteps_append, idleSteps_loop]
  simp [idleSteps_logout]

theorem underLock_append (t1 t2 : List Event) (l : Bool) :
    underLock l (t1 ++ t2) =
      (underLock l t1).bind (fun l2 => underLock l2 t2) := by
  induction t1 generalizing l with
  | nil => simp [underLock]
  | cons e rest ih =>
    cases e <;> simp [underLock, ih] <;> split <;> simp [ih]

theorem underLock_drain (ids : List (String × Bool)) :
    underLock true (drain_events ids) = some true := by
  induction ids with
  | nil => simp [drain_events, underLock]
  | cons x rest ih =>
    obtain ⟨id, ok⟩ := x
    cases ok <;> simp [drain_events, underLock, ih]

theorem underLock_iter (p : Bool) (inp : IterInput) :
    underLock false (iter_events p inp).1 = some false := by
  obtain ⟨qe, oc, ids⟩ := inp
  cases oc with
  | timeout => cases p <;> cases qe <;> simp [iter_events, underLock]
  | push he =>
      cases p <;> cases qe <;> cases he <;>
        simp [iter_events, underLock, underLock_append, underLock_drain]

theorem underLock_login (env : LoginEnv) :
    underLock false (login_events env) = some false := by
  obtain ⟨h, r⟩ := env
  cases h <;> simp [login_events, underLock]

theorem underLock_change_mailbox (m : String) :
    underLock false (change_mailbox_events m) = some false := by
  simp [change_mailbox_events, underLock]

theorem underLock_logout (p v : Bool) :
    underLock false (logout_events p v) = some false := by
  cases p <;> cases v <;> simp [logout_events, underLock]

theorem underLock_init (m : String) (ids : List (String × Bool)) :
    underLock false (wfnm_init_events m ids) = none := by
  simp [wfnm_init_events, change_mailbox_events, underLock]

theorem countEv_append (e : Event) (t1 t2 : List Event) :
    countEv e (t1 ++ t2) = countEv e t1 + countEv e t2 := by
  induction t1 with
  | nil => simp [countEv]
  | cons x rest ih => simp [countEv, ih]; omega

theorem countEv_search_drain (ids : List (String × Bool)) :
    countEv Event.searchCmd (drain_events ids) = 0 := by
  induction ids with
  | nil => rfl
  | cons x rest ih =>
    obtain ⟨id, ok⟩ := x
    cases ok <;> simp [drain_events, countEv, countEv_append, ih]

theorem handlerCalls_drain (ids : List (String × Bool)) :
    handlerCalls (drain_events ids) =
      (ids.filter (fun x => x.2)).map Prod.fst := by
  induction ids with
  | nil => rfl
  | cons x rest ih =>
    obtain ⟨id, ok⟩ := x
    cases ok <;> simp [drain_events, handlerCalls, ih, List.filter]

theorem fetchCmds_drain (ids : List (String × Bool)) :
    fetchCmds (drain_events ids) = ids.map Prod.fst := by
  induction ids with
  | nil => rfl
  | cons x rest ih =>
    obtain ⟨id, ok⟩ := x
    cases ok <;> simp [drain_events, fetchCmds, ih]

theorem idleStart_notin_drain (ids : List (String × Bool)) :
    Event.idleStartCmd ∉ drain_events ids := by
  induction ids with
  | nil => simp [drain_events]
  | cons x rest ih =>
    obtain ⟨id, ok⟩ := x
    cases ok <;> simp [drain_events, ih]

theorem handlerCalls_init (m : String) (ids : List (String × Bool)) :
    handlerCalls (wfnm_init_events m ids) = handlerCalls (drain_events ids) := by
  simp [wfnm_init_events, change_mailbox_events, handlerCalls]

theorem fetchCmds_init (m : String) (ids : List (String × Bool)) :
    fetchCmds (wfnm_init_events m ids) = fetchCmds (drain_events ids) := by
  simp [wfnm_init_events, change_mailbox_events, fetchCmds]

/-! ## Claim theorems -/

/-- C1 counterexample: the initial drain performed right after mailbox
selection does NOT hold `imap_client_lock`. At mailbox "INBOX" with one
unseen message, the lock-discipline checker flags a violation
(`underLock = none`): the `search` command at trace index 3 is issued
after `change_mailbox` has already released the lock, contradicting the
claim that every execution of searchUnseen and fetch (including the
initial drain) holds the lock from start to completion. -/
theorem initial_drain_unlocked_cex :
    underLock false (wfnm_init_events "INBOX" [("1", true)]) = none
  ∧ (wfnm_init_events "INBOX" [("1", true)]).get? 3 = some Event.searchCmd := by
  exact ⟨rfl, rfl⟩

/-- C1 amended: `login`, `change_mailbox` (selectMailbox) and `logout`
each hold the lock for the whole duration of their transport commands,
acquiring and releasing it exactly once, and every idle-loop iteration —
including the search/fetch drain it performs — runs entirely under the
lock; but `search_unseen` and `fetch` do not themselves acquire the lock,
so the initial drain right after mailbox selection always runs its search
and fetch commands without the lock held (`underLock = none`). -/
theorem lock_discipline_amended (env : LoginEnv) (m : String) (p v : Bool)
    (inp : IterInput) (ids : List (String × Bool)) :
    underLock false (login_events env) = some false
  ∧ underLock false (change_mailbox_events m) = some false
  ∧ underLock false (logout_events p v) = some false
  ∧ underLock false (iter_events p inp).1 = some false
  ∧ underLock false (wfnm_init_events m ids) = none :=
  ⟨underLock_login env, underLock_change_mailbox m, underLock_logout p v,
   underLock_iter p inp, underLock_init m ids⟩

/-- C2: for every sequence of idle outcomes (timeout/cancellation, push,
push-with-EXISTS) and every drain content, the session trace from
mailbox selection through the idle loop to `logout` never violates the
idle discipline (`idleSteps ≠ none`): at most one idle is ever
outstanding, `idleDone` is issued exactly when one is pending, and no
search/fetch/select/logout command is ever issued while an idle is
outstanding. Moreover, when `logout` runs in a protocol state that admits
LOGOUT (`validState = true`), the final trace closes every idle: exactly
one `idleDone` per `idleStart`, on the normal path and the
shutdown/logout path alike. -/
theorem idle_discipline_holds (m : String) (ids : List (String × Bool))
    (inputs : List IterInput) (v : Bool) :
    idleSteps false (session_events m ids inputs v) ≠ none
  ∧ idleSteps false (session_events m ids inputs true) = some false := by
  constructor
  · rw [idleSteps_session]; simp
  · rw [idleSteps_session]; simp

/-- C3 counterexample: a non-OK `select` during `wait_for_new_message`
does stop the whole receiver. `change_mailbox` raises RuntimeError on
result "NO"; the watch task therefore ends `errored`, and `Receiver.run`
reacts by setting `should_exit`: the run loop performs its
sentinel/logout epilogue and terminates without executing the second
scripted iteration — there is no reconnection and no further login,
contradicting the claim that the failure routes the loop back to
LoggingIn and does not stop the receiver. -/
theorem select_failure_stops_receiver_cex :
    change_mailbox "INBOX" "NO" = Except.error Exc.runtimeError
  ∧ wfnm_select_outcome "INBOX" "NO" = some TaskEnd.errored
  ∧ run_loop
      [{ loginOk := true, taskEnd := TaskEnd.errored, logoutOk := true },
       { loginOk := true, taskEnd := TaskEnd.cancelledRetry, logoutOk := true }] =
      [Event.loginAttempt, Event.loginSuccess, Event.handlerStopped,
       Event.logoutCmd] := by
  exact ⟨rfl, rfl, rfl⟩

/-- C3 amended: a non-OK result from `select` raises RuntimeError out of
`change_mailbox`, so the watch task ends with a non-CancelledError
exception; `Receiver.run` treats this as fatal — it sets `should_exit`,
delivers the RECEIVER_STOPPED sentinel, logs out, and exits its loop
without running any further iteration. The receiver stops; it does not
route through reconnection back to LoggingIn. -/
theorem select_failure_is_fatal (m r : String) (rest : List IterEnv)
    (hm : m.length ≠ 0) (hr : r ≠ "OK") :
    change_mailbox m r = Except.error Exc.runtimeError
  ∧ wfnm_select_outcome m r = some TaskEnd.errored
  ∧ run_loop
      ({ loginOk := true, taskEnd := TaskEnd.errored, logoutOk := true } :: rest) =
      [Event.loginAttempt, Event.loginSuccess, Event.handlerStopped,
       Event.logoutCmd] := by
  refine ⟨?_, ?_, ?_⟩
  · simp [change_mailbox, hm, hr]
  · simp [wfnm_select_outcome, change_mailbox, hm, hr]
  · simp [run_loop, run_iter]

/-- Witness for the C3 amended theorem at mailbox "INBOX" and select
result "NO", with one further scripted iteration list empty. -/
theorem select_failure_is_fatal_witness :
    change_mailbox "INBOX" "NO" = Except.error Exc.runtimeError
  ∧ wfnm_select_outcome "INBOX" "NO" = some TaskEnd.errored
  ∧ run_loop
      [{ loginOk := true, taskEnd := TaskEnd.errored, logoutOk := true }] =
      [Event.loginAttempt, Event.loginSuccess, Event.handlerStopped,
       Event.logoutCmd] :=
  select_failure_is_fatal "INBOX" "NO" [] (by decide) (by decide)

/-- C4: `Receiver.login` never lets an exception escape and fails exactly
when the transport fails or the result is non-OK: for every environment
(greeting timeout, socket error, command exception, any result string)
`login` returns `Except.ok` of the success Boolean — `true` precisely
when the greeting arrived and authentication returned "OK", `false` on
every transport error and every non-OK result. -/
theorem login_never_raises (env : LoginEnv) :
    login env = Except.ok (login_spec env) := by
  obtain ⟨h, r⟩ := env
  cases h with
  | error e => rfl
  | ok u =>
      cases r with
      | error e => rfl
      | ok s =>
          by_cases hs : s = "OK" <;> simp [login, login_body, login_spec, hs]

/-- C5: after a successful selection, `wait_for_new_message` drains all
currently-unseen messages before the first idle command. When every fetch
response is well-formed (more than one line), the handler is invoked
exactly once per ID returned by `search_unseen`, in the returned order,
and `fetch` is issued once per ID; no `idleStart` occurs anywhere in this
initial segment, the drain's search runs exactly once regardless of
whether any IDs were found, and the whole session trace is this initial
segment followed by the idle loop and logout. -/
theorem initial_drain_before_idle (m : String) (ids : List (String × Bool))
    (inputs : List IterInput) (v : Bool)
    (h : ∀ x ∈ ids, x.2 = true) :
    handlerCalls (wfnm_init_events m ids) = ids.map Prod.fst
  ∧ fetchCmds (wfnm_init_events m ids) = ids.map Prod.fst
  ∧ Event.idleStartCmd ∉ wfnm_init_events m ids
  ∧ countEv Event.searchCmd (wfnm_init_events m ids) = 1
  ∧ session_events m ids inputs v =
      wfnm_init_events m ids ++
        ((loop_events false inputs).1 ++
          logout_events (loop_events false inputs).2 v) := by
  refine ⟨?_, ?_, ?_, ?_, rfl⟩
  · rw [handlerCalls_init, handlerCalls_drain, List.filter_eq_self.mpr h]
  · rw [fetchCmds_init, fetchCmds_drain]
  · simp [wfnm_init_events, change_mailbox_events]
    exact idleStart_notin_drain ids
  · simp [wfnm_init_events, change_mailbox_events, countEv, countEv_append,
      countEv_search_drain]

/-- Witness for C5 at mailbox "INBOX" with two well-formed unseen
messages "5" and "6" and an empty idle script. -/
theorem initial_drain_before_idle_witness :
    handlerCalls (wfnm_init_events "INBOX" [("5", true), ("6", true)]) =
      ([("5", true), ("6", true)] : List (String × Bool)).map Prod.fst
  ∧ fetchCmds (wfnm_init_events "INBOX" [("5", true), ("6", true)]) =
      ([("5", true), ("6", true)] : List (String × Bool)).map Prod.fst
  ∧ Event.idleStartCmd ∉ wfnm_init_events "INBOX" [("5", true), ("6", true)]
  ∧ countEv Event.searchCmd
      (wfnm_init_events "INBOX" [("5", true), ("6", true)]) = 1
  ∧ session_events "INBOX" [("5", true), ("6", true)] [] true =
      wfnm_init_events "INBOX" [("5", true), ("6", true)] ++
        ((loop_events false []).1 ++
          logout_events (loop_events false []).2 true) :=
  initial_drain_before_idle "INBOX" [("5", true), ("6", true)] [] true
    (by decide)

/-- C6: `handle_exit` is idempotent — applying it twice yields exactly
the state of applying it once (so the watch task is cancelled at most
once and the loop is stopped once) — it always leaves `should_exit` set,
and once `should_exit` is set a further call is a no-op, so the trigger
sets the flag at most once per lifecycle. -/
theorem stop_request_idempotent (s : RState) :
    handle_exit (handle_exit s) = handle_exit s
  ∧ (handle_exit s).shouldExit = true
  ∧ handle_exit { s with shouldExit := true } = { s with shouldExit := true } := by
  obtain ⟨se, ta, cc⟩ := s
  cases se <;> simp [handle_exit]

/-- C7 counterexample: the RECEIVER_STOPPED sentinel is delivered on an
internal retry iteration after which watching resumes. With a first
iteration whose watch task is cancelled by `reconnect` (so `should_exit`
stays clear) and a second ended by a stop request, the run trace delivers
the sentinel at index 2 and then performs another login at index 4 — the
receiver continued running after a sentinel delivery, and the sentinel
was delivered twice although the loop exited once. -/
theorem sentinel_on_retry_cex :
    (run_loop
       [{ loginOk := true, taskEnd := TaskEnd.cancelledRetry, logoutOk := true },
        { loginOk := true, taskEnd := TaskEnd.cancelledByStop,
          logoutOk := true }]).get? 2 = some Event.handlerStopped
  ∧ (run_loop
       [{ loginOk := true, taskEnd := TaskEnd.cancelledRetry, logoutOk := true },
        { loginOk := true, taskEnd := TaskEnd.cancelledByStop,
          logoutOk := true }]).get? 4 = some Event.loginAttempt
  ∧ countEv Event.handlerStopped
      (run_loop
        [{ loginOk := true, taskEnd := TaskEnd.cancelledRetry, logoutOk := true },
         { loginOk := true, taskEnd := TaskEnd.cancelledByStop,
           logoutOk := true }]) = 2 := by
  exact ⟨rfl, rfl, rfl⟩

/-- C7 amended: `Receiver.run` invokes the callback with the
RECEIVER_STOPPED sentinel exactly once per loop iteration in which login
succeeded — i.e., every time the watch task ends, including
retry/reconnect iterations after which watching resumes — and never on an
iteration where login failed; in every run trace the number of sentinel
deliveries equals the number of successful logins. -/
theorem sentinel_per_login_success (envs : List IterEnv) :
    countEv Event.handlerStopped (run_loop envs) =
      countEv Event.loginSuccess (run_loop envs) := by
  induction envs with
  | nil => rfl
  | cons env rest ih =>
    obtain ⟨lo, te, lok⟩ := env
    cases lo <;> cases te <;> cases lok <;>
      simp [run_loop, run_iter, countEv, countEv_append, ih]

/-- C8 counterexample: `change_mailbox` invoked while an idle is pending
does not cancel (complete) the pending idle: its trace contains no
`idleDone` command and it leaves the pending-idle state unchanged
(`true` stays `true`), contradicting the claim that the switch cancels
the pending idle. -/
theorem change_mailbox_no_cancel_cex :
    (change_mailbox_step true "Spam").2 = true
  ∧ countEv Event.idleDoneCmd (change_mailbox_step true "Spam").1 = 0 := by
  exact ⟨rfl, rfl⟩

/-- C8 amended: `change_mailbox` performs its select while holding the
same `imap_client_lock` as the loop — its whole trace passes the
lock-discipline checker — so the switch's select never interleaves with
the loop's own commands; but it does not cancel a pending idle (no
`idleDone` in its trace, pending state unchanged). It simply waits for
the lock, and the loop never releases the lock with an idle pending on
the push path: every push iteration ends with no pending idle, after
which idling resumes on the newly selected mailbox. -/
theorem change_mailbox_lock_no_cancel (m : String) (p qe b : Bool)
    (ids : List (String × Bool)) :
    underLock false (change_mailbox_step p m).1 = some false
  ∧ Event.idleDoneCmd ∉ (change_mailbox_step p m).1
  ∧ (change_mailbox_step p m).2 = p
  ∧ (iter_events p
      { queueEmpty := qe, outcome := IdleOutcome.push b, ids := ids }).2.1 =
      false := by
  refine ⟨underLock_change_mailbox m, ?_, rfl, ?_⟩
  · simp [change_mailbox_step, change_mailbox_events]
  · cases p <;> cases qe <;> cases b <;> simp [iter_events]

/-- C9: during any drain, an ID whose fetch response is malformed or
short (at most one response line) produces a deterministic skip: the
handler is invoked exactly for the IDs with well-formed responses (in
order), while `fetch` is still issued for every ID — the loop continues
with the remaining IDs and no exception arises (the drain is a total
function of the responses). -/
theorem fetch_malformed_skips (ids : List (String × Bool)) :
    handlerCalls (drain_events ids) =
      (ids.filter (fun x => x.2)).map Prod.fst
  ∧ fetchCmds (drain_events ids) = ids.map Prod.fst :=
  ⟨handlerCalls_drain ids, fetchCmds_drain ids⟩

/-- C10: `Receiver.run` unconditionally clears both `should_exit` and
`exit_event` at entry: whatever the two flags held before — in
particular after a stop request that set `should_exit` — the state after
entry is (false, false), the loop runs exactly as if the flags had been
clear (the run trace is independent of the prior flag state), so the
tri-state shutdown flag moves backward from stop-requested to running
across the run-entry boundary. -/
theorem run_entry_clears_flags (f g : EventFlags) (envs : List IterEnv) :
    run_entry f = { shouldExit := false, exitEvent := false }
  ∧ run_model f envs = run_loop envs
  ∧ run_model f envs = run_model g envs :=
  ⟨rfl, rfl, rfl⟩
